import Mathlib

/-!
Verification of the RTCM relay firmware
(`src/DougFoster_Ghost_Rover_EVK_RTCM_relay.ino`, version 3.0.10).

The development shallowly embeds the loop functions of the sketch:

* `relayStep` / `relayRun` embed one iteration of `checkRTCMtoRadio`
  (lines 702-734): read one byte from Serial0, write it to Serial1,
  and run the preamble / byteCount frame-synchronizer state machine.
* `rtcm3GetMessageType` embeds the C function of the same name
  (lines 752-759).
* `dispatch` embeds the command-dispatch part of `checkSerialUSB`
  (the branch taken when a line terminator arrives with a non-empty
  buffer, lines 538-675); `consoleStores` embeds the character
  accumulation branch (lines 676-679).
* `ledStep` / `ledRun` embed the `radioRtcmLEDtask` background task
  (lines 325-332) together with `updateLED` (lines 773-787).

Machine integers are modelled as `Nat` with explicit truncation where
the C type can wrap (`byteCount` is `uint16_t`, so increments are taken
mod 65536; the `uint16_t` assignment in `rtcm3GetMessageType` is taken
mod 65536).  The target toolchain is RISC-V (ESP32-C6), where plain
`char` is unsigned, so serial characters are bytes in `0..255`.
-/

set_option maxRecDepth 100000

/-! ## Frame synchronizer / relay pipeline (`checkRTCMtoRadio`) -/

/-- State of one `checkRTCMtoRadio` iteration, plus observation logs.
`preamble` and `byteCount` are the two `static` locals (a `uint8_t` and a
`uint16_t`).  `out` logs every byte written to Serial1 (the HC-12 radio),
in order.  `stores` logs every executed array write
`rtcmSentence[byteCount] = serialChar` as an (index, value) pair.
`events` counts executions of the `preamble == 2` branch (the
`updateLED('2')` frame-complete blink).  Console debug printing under
`debugRad` emits no Serial1 bytes and is not modelled. -/
structure RelayState where
  preamble  : Nat
  byteCount : Nat
  out       : List Nat
  stores    : List (Nat × Nat)
  events    : Nat
deriving DecidableEq

/-- Initial relay state: both static counters start at zero. -/
def relayInit : RelayState :=
  { preamble := 0, byteCount := 0, out := [], stores := [], events := 0 }

/-- One iteration of `checkRTCMtoRadio` with a byte available on Serial0.
Follows the source line by line: the byte is written to Serial1 first;
a 0xD3 byte moves `preamble` from 0 to 1, or from non-zero to 2; while
`preamble == 1` the byte is stored at `rtcmSentence[byteCount]` and
`byteCount` is incremented (`uint16_t`, hence mod 65536); when
`preamble == 2` the LED is pulsed and both counters reset. -/
def relayStep (s : RelayState) (b : Nat) : RelayState :=
  let out' := s.out ++ [b]
  let p' := if b = 211 then (if s.preamble = 0 then 1 else 2) else s.preamble
  if p' = 1 then
    { preamble := p', byteCount := (s.byteCount + 1) % 65536,
      out := out', stores := s.stores ++ [(s.byteCount, b)], events := s.events }
  else if p' = 2 then
    { preamble := 0, byteCount := 0,
      out := out', stores := s.stores, events := s.events + 1 }
  else
    { s with preamble := p', out := out' }

/-- Iterate `checkRTCMtoRadio` over a whole input stream, one available
byte per iteration. -/
def relayRun (s : RelayState) (bs : List Nat) : RelayState :=
  bs.foldl relayStep s

theorem relayStep_out (s : RelayState) (b : Nat) :
    (relayStep s b).out = s.out ++ [b] := by
  simp only [relayStep]
  repeat' split
  all_goals rfl

theorem relayRun_out (s : RelayState) (bs : List Nat) :
    (relayRun s bs).out = s.out ++ bs := by
  induction bs generalizing s with
  | nil => simp [relayRun]
  | cons b rest ih =>
      show (relayRun (relayStep s b) rest).out = s.out ++ (b :: rest)
      rw [ih, relayStep_out]
      simp

/-- C1: iterating the relay pipeline over any N-byte input stream, from any
synchronizer state, writes exactly those N bytes to the output link,
unmodified and in order; moreover after any prefix of n input bytes the
output is exactly that prefix, so byte N is on the output link before
byte N+1 is read. -/
theorem relay_byte_fidelity :
    ∀ (s : RelayState) (bs : List Nat),
      (relayRun s bs).out = s.out ++ bs ∧
      ∀ n : Nat, (relayRun s (bs.take n)).out = s.out ++ bs.take n := by
  intro s bs
  exact ⟨relayRun_out s bs, fun n => relayRun_out s (bs.take n)⟩

/-- C2 (evaluation at the failing input): a stream of exactly two
well-formed frames — each `[0xD3, 0x01, 0xAA]`, i.e. preamble byte, second
byte 1 (below any sync threshold), body free of 0xD3 — produces exactly
one frame-complete event, not two.  The closing 0xD3 of frame 1 (which is
frame 2's preamble) resets `preamble` to 0 instead of marking the start of
frame 2, so frame 2 is never tracked and only every other frame blinks the
LED, contradicting the sketch's own header comment that the LED "blinks
once for every RTCM3 sentence transmitted". -/
theorem relay_two_frames_one_event :
    (relayRun relayInit ([211, 1, 170] ++ [211, 1, 170])).events = 1 ∧
    (relayRun relayInit ([211, 1, 170] ++ [211, 1, 170])).events ≠ 2 := by
  constructor
  · rfl
  · decide

/-- C3 (evaluation at the failing input): a never-closing frame — 0xD3
followed by 300 non-0xD3 bytes — drives `byteCount` past the 300-byte
capacity of `rtcmSentence`: the store log contains a write at index 300,
one past the last valid index, while the indicator never pulses.  The
source has no bound check on `byteCount`, so the claimed in-bounds
property fails and the write is out of bounds. -/
theorem relay_store_out_of_bounds :
    (300, 0) ∈ (relayRun relayInit (211 :: List.replicate 300 0)).stores ∧
    (relayRun relayInit (211 :: List.replicate 300 0)).events = 0 := by
  constructor
  · decide
  · decide

/-! ## RTCM3 message-type extraction (`rtcm3GetMessageType`) -/

/-- Embedding of `rtcm3GetMessageType(const char *buffer)`.  The buffer is
the captured `rtcmSentence`, a byte array; on the RISC-V target `char` is
unsigned, so each cell holds a value in `0..255`.  If byte 0 is not the
0xD3 preamble the function returns 0 immediately, touching no further
byte; otherwise it returns
`(uint16_t)buffer[3] << 4 | buffer[4] >> 4`, truncated to 16 bits by the
`uint16_t` assignment. -/
def rtcm3GetMessageType (buffer : List Nat) : Nat :=
  if buffer.getD 0 0 ≠ 211 then 0
  else (((buffer.getD 3 0) <<< 4) ||| ((buffer.getD 4 0) >>> 4)) % 65536

theorem rtcm3_no_truncation (b3 b4 : Nat) (h3 : b3 < 256) (h4 : b4 < 256) :
    ((b3 <<< 4) ||| (b4 >>> 4)) % 65536 = (b3 <<< 4) ||| (b4 >>> 4) := by
  have e4 : b4 >>> 4 = b4 / 16 := by
    simp [Nat.shiftRight_eq_div_pow]
  have hx : b4 >>> 4 < 2 ^ 4 := by
    rw [e4]; omega
  have hy : b3 < 2 ^ 8 := by omega
  have h := Nat.append_lt hx hy
  exact Nat.mod_eq_of_lt (h.trans (by norm_num))

/-- C4: on the worked example header `[0xD3, 0x00, 0x13, 0x3E, 0xD0]` the
extractor returns `(0x3E <<< 4) ||| (0xD0 >>> 4) = 0x3ED`; and in general,
for any captured buffer whose byte 0 is 0xD3 (bytes being values below
256), the result is byte 3 shifted left 4, or-ed with the high 4 bits of
byte 4. -/
theorem rtcm3_message_type_extraction :
    rtcm3GetMessageType [211, 0, 19, 62, 208] = 1005 ∧
    ∀ buffer : List Nat, buffer.getD 0 0 = 211 →
      buffer.getD 3 0 < 256 → buffer.getD 4 0 < 256 →
      rtcm3GetMessageType buffer =
        ((buffer.getD 3 0) <<< 4) ||| ((buffer.getD 4 0) >>> 4) := by
  constructor
  · decide
  · intro buffer h0 h3 h4
    unfold rtcm3GetMessageType
    rw [h0]
    simpa using rtcm3_no_truncation _ _ h3 h4

/-- Witness for C4's general clause at the worked example: 0x3E shifted
left 4 or-ed with the top nibble of 0xD0 is 0x3ED = 1005. -/
theorem rtcm3_message_type_extraction_witness :
    rtcm3GetMessageType [211, 0, 19, 62, 208] = (62 <<< 4) ||| (208 >>> 4) :=
  rtcm3_message_type_extraction.2 [211, 0, 19, 62, 208]
    (by decide) (by decide) (by decide)

/-- C10: a buffer whose first byte is not the 0xD3 preamble yields type
code 0 whatever the rest of the buffer holds (in particular bytes 3
and 4 are never consulted), and conversely any nonzero type code can only
come from a buffer whose first byte is 0xD3 — so type code 0 marks a
frame captured without a confirmed preamble. -/
theorem rtcm3_invalid_preamble_returns_zero :
    (∀ (b0 : Nat) (rest : List Nat), b0 ≠ 211 →
      rtcm3GetMessageType (b0 :: rest) = 0) ∧
    (∀ buffer : List Nat, rtcm3GetMessageType buffer ≠ 0 →
      buffer.getD 0 0 = 211) := by
  constructor
  · intro b0 rest h
    unfold rtcm3GetMessageType
    rw [if_pos]
    simpa using h
  · intro buffer h
    by_contra hne
    exact h (by unfold rtcm3GetMessageType; rw [if_pos hne])

/-- Witness for C10: byte 0 equal to 5 (not 0xD3) yields type code 0 even
though bytes 3 and 4 carry a valid-looking payload. -/
theorem rtcm3_invalid_preamble_returns_zero_witness :
    rtcm3GetMessageType [5, 0, 19, 62, 208] = 0 :=
  rtcm3_invalid_preamble_returns_zero.1 5 [0, 19, 62, 208] (by decide)

/-! ## Diagnostic console (`checkSerialUSB`) -/

/-- Byte values of a string of ASCII command characters, as the C-string
literals in `COMMANDS` are compared byte by byte by `strcmp`. -/
def strBytes (s : String) : List Nat := s.toList.map Char.toNat

/-- The four feature flags toggled by the console (global `bool`s in the
sketch, all initialized false by `initVars`). -/
structure Flags where
  testLEDr : Bool
  testRad  : Bool
  debugRad : Bool
  reset    : Bool
deriving DecidableEq

/-- The fixed command table `COMMANDS[NUM_COMMANDS]`. -/
def COMMANDS : List (List Nat) :=
  [strBytes "testLEDr", strBytes "testRad",
   strBytes "debugRad", strBytes "reset"]

/-- Console messages emitted by the dispatch branch, in order:
the valid-command listing, the "All debugging disabled." message, a
toggle report ("<command> enabled./disabled." with the new flag value),
the "Restarting ..." message, and the invalid-command error (carrying the
offending token). -/
inductive ConsoleOut where
  | listCmds     : ConsoleOut
  | allDisabled  : ConsoleOut
  | toggleReport : Nat → Bool → ConsoleOut
  | restarting   : ConsoleOut
  | invalidCmd   : List Nat → ConsoleOut
deriving DecidableEq

/-- How the dispatch branch hands control back: fall through to the next
`loop()` iteration, block in the HC-12 radio modal sub-loop, block in the
LED-test modal sub-loop, or restart the device (`esp_restart`, no further
code runs). -/
inductive ConsoleAction where
  | noModal    : ConsoleAction
  | modalRadio : ConsoleAction
  | modalLED   : ConsoleAction
  | restart    : ConsoleAction
deriving DecidableEq

/-- Result of one dispatch: the flag state when control leaves the
dispatch code, the console messages emitted before any modal sub-loop
begins, the control outcome, and whether `command`/`posn` are reset by
the time the dispatch code is left (the trailing reset is skipped when a
modal sub-loop exits via `return`; the radio modal resets the buffer at
entry instead, the LED modal does not). -/
structure DispatchResult where
  flags    : Flags
  outs     : List ConsoleOut
  action   : ConsoleAction
  bufReset : Bool
deriving DecidableEq

/-- After a matched toggle, the source checks `if (testRad)` and then
`if (testLEDr)` on the updated flags and enters the corresponding modal
sub-loop; the radio modal clears the command buffer on entry. -/
def modalEntry (f : Flags) (outs : List ConsoleOut) : DispatchResult :=
  if f.testRad then
    { flags := f, outs := outs, action := ConsoleAction.modalRadio, bufReset := true }
  else if f.testLEDr then
    { flags := f, outs := outs, action := ConsoleAction.modalLED, bufReset := false }
  else
    { flags := f, outs := outs, action := ConsoleAction.noModal, bufReset := true }

/-- Embedding of the dispatch branch of `checkSerialUSB` (taken when a
line terminator arrives with `posn > 0`).  `buf` is the raw content of
the `command` buffer; C string functions see only the prefix before the
first NUL.  In source order: `strstr(command, "?")` lists the commands;
`strstr(command, "!")` clears all four flags; otherwise the buffer is
`strcmp`-matched against `COMMANDS[0..3]` (toggle plus report, `reset`
restarting the MCU immediately, the other matches falling into a modal
sub-loop when the corresponding flag is now set); an unmatched non-empty
token reports one error.  `strstr` with a one-character needle is
containment of that character. -/
def dispatch (f : Flags) (buf : List Nat) : DispatchResult :=
  let cstr := buf.takeWhile (fun c => c ≠ 0)
  if 63 ∈ cstr then
    { flags := f, outs := [ConsoleOut.listCmds],
      action := ConsoleAction.noModal, bufReset := true }
  else if 33 ∈ cstr then
    { flags := ⟨false, false, false, false⟩, outs := [ConsoleOut.allDisabled],
      action := ConsoleAction.noModal, bufReset := true }
  else if cstr = strBytes "testLEDr" then
    let f' : Flags := { f with testLEDr := !f.testLEDr }
    modalEntry f' [ConsoleOut.toggleReport 0 f'.testLEDr]
  else if cstr = strBytes "testRad" then
    let f' : Flags := { f with testRad := !f.testRad }
    modalEntry f' [ConsoleOut.toggleReport 1 f'.testRad]
  else if cstr = strBytes "debugRad" then
    let f' : Flags := { f with debugRad := !f.debugRad }
    modalEntry f' [ConsoleOut.toggleReport 2 f'.debugRad]
  else if cstr = strBytes "reset" then
    let f' : Flags := { f with reset := !f.reset }
    { flags := f', outs := [ConsoleOut.toggleReport 3 f'.reset, ConsoleOut.restarting],
      action := ConsoleAction.restart, bufReset := false }
  else if cstr.length > 0 then
    { flags := f, outs := [ConsoleOut.invalidCmd cstr],
      action := ConsoleAction.noModal, bufReset := true }
  else
    { flags := f, outs := [], action := ConsoleAction.noModal, bufReset := true }

theorem takeWhile_ne_zero_eq (buf : List Nat) (h : 0 ∉ buf) :
    buf.takeWhile (fun c => c ≠ 0) = buf := by
  induction buf with
  | nil => rfl
  | cons c rest ih =>
      have hc : c ≠ 0 := fun hc => h (hc ▸ List.mem_cons_self c rest)
      have hr : 0 ∉ rest := fun hr => h (List.mem_cons_of_mem c hr)
      simp only [List.takeWhile_cons, hc, ih hr]
      simp [hc]

/-- Embedding of the accumulation branch of `checkSerialUSB` over a
console character sequence containing no line terminator and no command
that would leave the dispatch path (pure accumulation): each non-`'\n'`,
non-`'\r'` character is stored at `command[posn]` and `posn` is
incremented with no bound check; a terminator resets `posn` to 0.  The
result is the list of store indices used, in order. -/
def consoleStores : Nat → List Nat → List Nat
  | _,    []        => []
  | posn, c :: rest =>
      if c = 10 ∨ c = 13 then consoleStores 0 rest
      else posn :: consoleStores (posn + 1) rest

/-- C5 (evaluation at the failing input): twelve non-terminator
characters (twelve times 'a' = 97) before any newline drive `posn` past
the 11-byte `command` buffer: the twelfth store uses index 11, one past
the last valid index, refuting the claim that every accumulate-branch
store has `posn < 11`. -/
theorem console_store_out_of_bounds :
    11 ∈ consoleStores 0 (List.replicate 12 97) ∧
    ¬ (∀ i ∈ consoleStores 0 (List.replicate 12 97), i < 11) := by
  constructor
  · decide
  · decide

/-- C7 counterexample: the line "?!" contains '!' (byte 33), yet
dispatching it with `debugRad` set leaves `debugRad` set — the
`strstr(command, "?")` listing branch is checked first and wins, so a
line containing '!' does not always clear the flags. -/
theorem dispatch_bang_counterexample :
    33 ∈ strBytes "?!" ∧
    (dispatch ⟨false, false, true, false⟩ (strBytes "?!")).flags.debugRad = true := by
  constructor
  · decide
  · decide

/-- C7 as amended: from every flag combination, dispatching a console
line that contains '!' but no '?' (and no NUL byte) clears all four
feature flags, emits the single "All debugging disabled." message, and
falls through to the next loop iteration — no modal sub-loop, no
restart, and the command buffer is reset. -/
theorem dispatch_bang_clears_flags (f : Flags) (buf : List Nat)
    (hbang : 33 ∈ buf) (hq : 63 ∉ buf) (hnul : 0 ∉ buf) :
    dispatch f buf =
      { flags := ⟨false, false, false, false⟩, outs := [ConsoleOut.allDisabled],
        action := ConsoleAction.noModal, bufReset := true } := by
  simp only [dispatch]
  rw [takeWhile_ne_zero_eq buf hnul]
  rw [if_neg hq, if_pos hbang]

/-- Witness for C7: dispatching the line "!" with all four flags set
clears them all with no modal sub-loop. -/
theorem dispatch_bang_clears_flags_witness :
    dispatch ⟨true, true, true, true⟩ [33] =
      { flags := ⟨false, false, false, false⟩, outs := [ConsoleOut.allDisabled],
        action := ConsoleAction.noModal, bufReset := true } :=
  dispatch_bang_clears_flags ⟨true, true, true, true⟩ [33]
    (by decide) (by decide) (by decide)

/-- C8 counterexample: dispatching the unmatched token "xyz" leaves the
flags unchanged and emits the error message, but no command listing at
all — the invalid-command branch prints only the error, so the claimed
"error message plus the command listing" is refuted. -/
theorem dispatch_unknown_counterexample :
    (dispatch ⟨false, false, false, false⟩ (strBytes "xyz")).flags =
      ⟨false, false, false, false⟩ ∧
    ConsoleOut.listCmds ∉
      (dispatch ⟨false, false, false, false⟩ (strBytes "xyz")).outs := by
  constructor
  · decide
  · decide

/-- C8 as amended: dispatching any non-empty console line free of '?',
'!' and NUL that matches none of the four command tokens leaves all four
feature flags unchanged, emits exactly one error message (and nothing
else — in particular no command listing), resets the command buffer, and
falls through to the next loop iteration (never fatal: no restart, no
modal sub-loop). -/
theorem dispatch_unknown_command (f : Flags) (buf : List Nat)
    (hne : buf ≠ []) (hnul : 0 ∉ buf) (hq : 63 ∉ buf) (hbang : 33 ∉ buf)
    (hcmd : buf ∉ COMMANDS) :
    dispatch f buf =
      { flags := f, outs := [ConsoleOut.invalidCmd buf],
        action := ConsoleAction.noModal, bufReset := true } := by
  simp only [COMMANDS, List.mem_cons, List.mem_singleton, not_or] at hcmd
  obtain ⟨h0, h1, h2, h3, -⟩ := hcmd
  simp only [dispatch]
  rw [takeWhile_ne_zero_eq buf hnul]
  rw [if_neg hq, if_neg hbang, if_neg h0, if_neg h1, if_neg h2, if_neg h3,
    if_pos (List.length_pos.mpr hne)]

/-- Witness for C8: dispatching "xyz" from the all-false flag state
yields exactly one invalid-command error, unchanged flags, a reset
buffer, and no modal sub-loop. -/
theorem dispatch_unknown_command_witness :
    dispatch ⟨false, false, false, false⟩ (strBytes "xyz") =
      { flags := ⟨false, false, false, false⟩,
        outs := [ConsoleOut.invalidCmd (strBytes "xyz")],
        action := ConsoleAction.noModal, bufReset := true } :=
  dispatch_unknown_command ⟨false, false, false, false⟩ (strBytes "xyz")
    (by decide) (by decide) (by decide) (by decide) (by decide)

/-- C9: from every initial flag combination, dispatching the token
"testLEDr" twice (each dispatch taken outside any modal sub-loop)
returns all four flags — in particular `testLEDr` — to their original
values, the toggle being an involution; and each of the two dispatches
reports the transition it made (first to `!testLEDr`, then back to
`testLEDr`). -/
theorem dispatch_testLEDr_involution (f : Flags) :
    (dispatch (dispatch f (strBytes "testLEDr")).flags (strBytes "testLEDr")).flags = f ∧
    (dispatch f (strBytes "testLEDr")).outs =
      [ConsoleOut.toggleReport 0 (!f.testLEDr)] ∧
    (dispatch (dispatch f (strBytes "testLEDr")).flags (strBytes "testLEDr")).outs =
      [ConsoleOut.toggleReport 0 f.testLEDr] := by
  obtain ⟨a, b, c, d⟩ := f
  cases a <;> cases b <;> cases c <;> cases d <;> decide

/-! ## Status signal controller (`radioRtcmLEDtask` / `updateLED`) -/

/-- Tick period of the FreeRTOS scheduler on the arduino-esp32 core
(1000 Hz tick rate, so one tick per millisecond). -/
def portTICK_PERIOD_MS : Nat := 1

/-- The constant `LED_TIME_FLASH_ON = 100 / portTICK_PERIOD_MS`: how many
ticks the LED is held on per pulse. -/
def LED_TIME_FLASH_ON : Nat := 100 / portTICK_PERIOD_MS

/-- Phase of the LED task: `suspended` (after `vTaskSuspend(NULL)`, the
LED driven low), or `onPhase r` (the task has driven the LED high and is
blocked in `vTaskDelay` with `r` ticks remaining). -/
inductive LEDPhase where
  | suspended : LEDPhase
  | onPhase   : Nat → LEDPhase
deriving DecidableEq

/-- Observable state of the status signal controller: the task phase and
the number of completed on/off indicator cycles. -/
structure LEDState where
  phase  : LEDPhase
  cycles : Nat
deriving DecidableEq

/-- Events acting on the LED task: a pulse request
(`updateLED('2')`, i.e. `vTaskResume(radioRtcmLEDtaskHandle)`), or one
scheduler tick elapsing. -/
inductive LEDEvent where
  | resume : LEDEvent
  | tick   : LEDEvent
deriving DecidableEq

/-- Semantics of `radioRtcmLEDtask` under `vTaskResume` and time.
Resuming the suspended task runs its loop body up to the `vTaskDelay`:
the LED goes high and `LED_TIME_FLASH_ON` ticks of delay begin.
Resuming a task that is not suspended has no effect (FreeRTOS
`vTaskResume` semantics, as documented at the links in the source).
A tick decrements the remaining delay; when it runs out the task drives
the LED low (one completed cycle) and suspends itself again. -/
def ledStep (s : LEDState) (e : LEDEvent) : LEDState :=
  match e, s.phase with
  | LEDEvent.resume, LEDPhase.suspended =>
      { s with phase := LEDPhase.onPhase LED_TIME_FLASH_ON }
  | LEDEvent.resume, LEDPhase.onPhase _ => s
  | LEDEvent.tick,   LEDPhase.suspended => s
  | LEDEvent.tick,   LEDPhase.onPhase r =>
      if r ≤ 1 then { phase := LEDPhase.suspended, cycles := s.cycles + 1 }
      else { s with phase := LEDPhase.onPhase (r - 1) }

/-- Run the controller over a sequence of events. -/
def ledRun (s : LEDState) (es : List LEDEvent) : LEDState :=
  es.foldl ledStep s

theorem ledRun_append (s : LEDState) (l1 l2 : List LEDEvent) :
    ledRun s (l1 ++ l2) = ledRun (ledRun s l1) l2 :=
  List.foldl_append ledStep s l1 l2

theorem ledRun_ticks_mid (k : Nat) :
    ∀ (r c : Nat), k < r →
      ledRun ⟨LEDPhase.onPhase r, c⟩ (List.replicate k LEDEvent.tick) =
        ⟨LEDPhase.onPhase (r - k), c⟩ := by
  induction k with
  | zero => intro r c _; simp [ledRun]
  | succ k ih =>
      intro r c h
      rw [List.replicate_succ]
      show ledRun (ledStep ⟨LEDPhase.onPhase r, c⟩ LEDEvent.tick)
        (List.replicate k LEDEvent.tick) = _
      have hr : ¬ r ≤ 1 := by omega
      simp only [ledStep, hr, if_false]
      rw [ih (r - 1) c (by omega)]
      have e : r - 1 - k = r - (k + 1) := by omega
      rw [e]

theorem ledRun_ticks_complete (k : Nat) :
    ∀ (r c : Nat), 0 < r → r ≤ k →
      ledRun ⟨LEDPhase.onPhase r, c⟩ (List.replicate k LEDEvent.tick) =
        ⟨LEDPhase.suspended, c + 1⟩ := by
  induction k with
  | zero => intro r c h1 h2; omega
  | succ k ih =>
      intro r c h1 h2
      rw [List.replicate_succ]
      show ledRun (ledStep ⟨LEDPhase.onPhase r, c⟩ LEDEvent.tick)
        (List.replicate k LEDEvent.tick) = _
      by_cases hr : r ≤ 1
      · simp only [ledStep, hr, if_true]
        clear ih h1 h2 hr
        induction k with
        | zero => rfl
        | succ k ihk =>
            rw [List.replicate_succ]
            exact ihk
      · simp only [ledStep, hr, if_false]
        exact ih (r - 1) c (by omega) (by omega)

/-- C6: a pulse request while a previous pulse is still in flight has no
additional effect.  Starting from the suspended controller, a pulse
request, then a second pulse request n ticks later with the first pulse
still in flight (n below the pulse duration), then enough further ticks
to let the pulse finish, yield exactly one completed on/off indicator
cycle — never two — with the task suspended again; at most one pulse is
ever in flight since the second resume is a no-op. -/
theorem led_at_most_one_pulse (n m : Nat)
    (h1 : n < LED_TIME_FLASH_ON) (h2 : LED_TIME_FLASH_ON ≤ n + m) :
    ledRun ⟨LEDPhase.suspended, 0⟩
      (LEDEvent.resume ::
        (List.replicate n LEDEvent.tick ++
          LEDEvent.resume :: List.replicate m LEDEvent.tick)) =
      ⟨LEDPhase.suspended, 1⟩ := by
  show ledRun (ledStep ⟨LEDPhase.suspended, 0⟩ LEDEvent.resume)
    (List.replicate n LEDEvent.tick ++
      LEDEvent.resume :: List.replicate m LEDEvent.tick) = _
  rw [show ledStep ⟨LEDPhase.suspended, 0⟩ LEDEvent.resume =
    ⟨LEDPhase.onPhase LED_TIME_FLASH_ON, 0⟩ from rfl]
  rw [ledRun_append]
  rw [ledRun_ticks_mid n LED_TIME_FLASH_ON 0 h1]
  show ledRun (ledStep ⟨LEDPhase.onPhase (LED_TIME_FLASH_ON - n), 0⟩
    LEDEvent.resume) (List.replicate m LEDEvent.tick) = _
  rw [show ledStep ⟨LEDPhase.onPhase (LED_TIME_FLASH_ON - n), 0⟩
    LEDEvent.resume = ⟨LEDPhase.onPhase (LED_TIME_FLASH_ON - n), 0⟩ from rfl]
  exact ledRun_ticks_complete m (LED_TIME_FLASH_ON - n) 0
    (by omega) (by omega)

/-- Witness for C6: a second pulse request arriving 50 ticks into a
100-tick pulse, followed by 50 more ticks, yields exactly one completed
indicator cycle. -/
theorem led_at_most_one_pulse_witness :
    ledRun ⟨LEDPhase.suspended, 0⟩
      (LEDEvent.resume ::
        (List.replicate 50 LEDEvent.tick ++
          LEDEvent.resume :: List.replicate 50 LEDEvent.tick)) =
      ⟨LEDPhase.suspended, 1⟩ :=
  led_at_most_one_pulse 50 50 (by decide) (by decide)
